import Mathlib

/-!
Shallow embedding of the planar segment kernel of libIGES
(src/geom/geom_segment.cpp): segment construction (the two SetParams
overloads), intersection dispatch (GetIntersections) with its helpers
(checkCircles, calcCircleIntercepts, checkArcs, checkArcLine, checkLines),
bounding boxes (GetBoundingBox) and the CCW accessors getStart / getEnd.
Doubles are modelled as real numbers; the libm functions sqrt and atan2
are modelled by Real.sqrt and the usual two-argument arctangent.
Out-parameters and uninitialized local arrays of the C++ code are modelled
by explicit input parameters, so theorems can quantify over them.
-/

namespace LibIGES

open scoped Classical

noncomputable section

/-- A point: an ordered triple of double-precision coordinates. -/
structure IGES_POINT where
  x : ℝ
  y : ℝ
  z : ℝ

/-- The segment kind tags SEGTYPE_NONE / _LINE / _ARC / _CIRCLE. -/
inductive SEGTYPE where
  | NONE
  | LINE
  | ARC
  | CIRCLE
deriving DecidableEq

/-- The intersection flags of IGES_INTERSECT_FLAG used by geom_segment.cpp.
IDENT is the spec's Coincident, ENCIRCLES is OtherInsideSegment,
INSIDE is SegmentInsideOther, EDGE is EdgeOverlap. -/
inductive IFLAG where
  | NONE
  | IDENT
  | TANGENT
  | ENCIRCLES
  | INSIDE
  | EDGE
deriving DecidableEq

/-- The mutable state of an IGES_GEOM_SEGMENT object. -/
structure SegState where
  msegtype : SEGTYPE
  mCWArc : Bool
  mradius : ℝ
  msang : ℝ
  meang : ℝ
  mcenter : IGES_POINT
  mstart : IGES_POINT
  mend : IGES_POINT

/-- The all-zero point. -/
def pZero : IGES_POINT := ⟨0, 0, 0⟩

/-- IGES_GEOM_SEGMENT::init(): the unset state every constructor starts from. -/
def segInit : SegState :=
  { msegtype := SEGTYPE.NONE
    mCWArc := false
    mradius := 0
    msang := 0
    meang := 0
    mcenter := pZero
    mstart := pZero
    mend := pZero }

/-- Modelled from the spec: PointMatches (declared in iges_helpers.h, whose
implementation is not under src/) is the tolerance-based point equality
of the data model, true when the magnitude of the coordinate difference
is below the given epsilon. -/
def PointMatches (a b : IGES_POINT) (eps : ℝ) : Prop :=
  Real.sqrt ((a.x - b.x) ^ 2 + (a.y - b.y) ^ 2 + (a.z - b.z) ^ 2) < eps

/-- The two-argument arctangent of libm, in the idealized real model:
the angle in (-pi, pi] of the point (x, y). -/
def atan2 (y x : ℝ) : ℝ :=
  if 0 < x then Real.arctan (y / x)
  else if x = 0 then
    (if 0 < y then Real.pi / 2 else if y < 0 then -(Real.pi / 2) else 0)
  else if 0 ≤ y then Real.arctan (y / x) + Real.pi
  else Real.arctan (y / x) - Real.pi

/-- The while-loop of SetParams adding 2*pi to the end angle until it is
no longer below the start angle. -/
def normAngle (sa ea : ℝ) : ℝ :=
  if sa ≤ ea then ea
  else ea + 2 * Real.pi * ((Int.ceil ((sa - ea) / (2 * Real.pi)) : ℤ) : ℝ)

/-- IGES_GEOM_SEGMENT::SetParams(aStart, aEnd): line construction.
The previous state is taken as a parameter; init() discards it. -/
def setParamsLine (_prev : SegState) (aStart aEnd : IGES_POINT) :
    Bool × SegState :=
  let s := segInit
  if aStart.z ≠ 0 ∨ aEnd.z ≠ 0 then (false, s)
  else if PointMatches aStart aEnd 1e-8 then (false, s)
  else (true, { s with mstart := aStart, mend := aEnd, msegtype := SEGTYPE.LINE })

/-- IGES_GEOM_SEGMENT::SetParams(aCenter, aStart, aEnd, isCW): arc or circle
construction. The previous state is taken as a parameter; init() discards it. -/
def setParamsArc (_prev : SegState) (aCenter aStart aEnd : IGES_POINT)
    (isCW : Bool) : Bool × SegState :=
  let s := segInit
  if aCenter.z ≠ 0 ∨ aStart.z ≠ 0 ∨ aEnd.z ≠ 0 then (false, s)
  else if PointMatches aCenter aStart 1e-8 ∨ PointMatches aCenter aEnd 1e-8 then
    (false, s)
  else
    let dx1 := aStart.x - aCenter.x
    let dy1 := aStart.y - aCenter.y
    let r1 := Real.sqrt (dx1 * dx1 + dy1 * dy1)
    if PointMatches aStart aEnd 1e-8 then
      let st : IGES_POINT := ⟨aCenter.x + r1, aCenter.y, aCenter.z⟩
      (true, { s with msegtype := SEGTYPE.CIRCLE, mradius := r1,
                      mcenter := aCenter, mstart := st, mend := st })
    else
      let dx2 := aEnd.x - aCenter.x
      let dy2 := aEnd.y - aCenter.y
      let r2 := Real.sqrt (dx2 * dx2 + dy2 * dy2)
      if |r2 - r1| > 1e-3 then (false, { s with mradius := 0 })
      else
        let sa0 := atan2 (aStart.y - aCenter.y) (aStart.x - aCenter.x)
        let ea0 := atan2 (aEnd.y - aCenter.y) (aEnd.x - aCenter.x)
        let sa := if isCW then ea0 else sa0
        let ea := if isCW then sa0 else ea0
        (true, { s with msegtype := SEGTYPE.ARC, mCWArc := isCW,
                        mradius := r1, msang := sa, meang := normAngle sa ea,
                        mcenter := aCenter, mstart := aStart, mend := aEnd })

/-- IGES_GEOM_SEGMENT::getStart(): swaps the stored endpoints for a CW arc so
that the pair getStart/getEnd describes a CCW arc. -/
def getStart (s : SegState) : IGES_POINT :=
  if s.mCWArc then s.mend else s.mstart

/-- IGES_GEOM_SEGMENT::getEnd(): swaps the stored endpoints for a CW arc so
that the pair getStart/getEnd describes a CCW arc. -/
def getEnd (s : SegState) : IGES_POINT :=
  if s.mCWArc then s.mstart else s.mend

/-- IGES_GEOM_SEGMENT::calcCircleIntercepts(c2, r2, d, p1, p2): the radical
line construction as literally coded, including the (x + h*dy, y + h*dx) /
(x - h*dy, y - h*dx) offsets and the clockwise-ordering swap on atan2 angles. -/
def calcCircleIntercepts (s : SegState) (c2 : IGES_POINT) (r2 d : ℝ) :
    IGES_POINT × IGES_POINT :=
  let rd := (d * d - r2 * r2 + s.mradius * s.mradius) / (2 * d)
  let dy := c2.y - s.mcenter.y
  let dx := c2.x - s.mcenter.x
  let x := rd / d * dx + s.mcenter.x
  let y := rd / d * dy + s.mcenter.y
  let h := Real.sqrt (s.mradius * s.mradius - rd * rd) / d
  let x0 := x + h * dy
  let y0 := y + h * dx
  let x1 := x - h * dy
  let y1 := y - h * dx
  let a0 := atan2 (y0 - s.mcenter.y) (x0 - s.mcenter.x)
  let a1 := atan2 (y1 - s.mcenter.y) (x1 - s.mcenter.x)
  if (0 ≤ a0 ∧ 0 ≤ a1 ∧ a1 < a0) ∨ (a0 < 0 ∧ a1 < 0 ∧ a1 < a0) ∨
      (a0 < 0 ∧ 0 ≤ a1) then
    (⟨x1, y1, 0⟩, ⟨x0, y0, 0⟩)
  else
    (⟨x0, y0, 0⟩, ⟨x1, y1, 0⟩)

/-- IGES_GEOM_SEGMENT::checkCircles: circle-circle intersection. The result
bundles the return value, the points appended to aIntersectList and the
flag (IFLAG.NONE models the flag GetIntersections reset on entry and the
helper left untouched). -/
def checkCircles (s1 s2 : SegState) : Bool × List IGES_POINT × IFLAG :=
  let c2 := s2.mcenter
  let r2 := s2.mradius
  let dx := s1.mcenter.x - c2.x
  let dy := s1.mcenter.y - c2.y
  let d := Real.sqrt (dx * dx + dy * dy)
  if d > s1.mradius + r2 then (false, [], IFLAG.NONE)
  else if PointMatches s1.mcenter c2 0.001 ∧ |s1.mradius - r2| < 0.001 then
    (false, [], IFLAG.IDENT)
  else if |d - s1.mradius - r2| < 0.001 then (false, [], IFLAG.TANGENT)
  else if d < s1.mradius ∨ d < r2 then
    if d ≤ s1.mradius - r2 then (false, [], IFLAG.ENCIRCLES)
    else if d ≤ r2 - s1.mradius then (false, [], IFLAG.INSIDE)
    else
      let pq := calcCircleIntercepts s1 c2 r2 d
      (true, [pq.1, pq.2], IFLAG.NONE)
  else
    let pq := calcCircleIntercepts s1 c2 r2 d
    (true, [pq.1, pq.2], IFLAG.NONE)

/-- IGES_GEOM_SEGMENT::checkArcs: the C++ body begins with
"XXX - TO BE IMPLEMENTED; return false;", so the routine returns failure
with no points and the flag GetIntersections reset on entry; everything
after that return (the sketched coincident-circle handling) is dead code. -/
def checkArcs (_s1 _s2 : SegState) : Bool × List IGES_POINT × IFLAG :=
  (false, [], IFLAG.NONE)

/-- IGES_GEOM_SEGMENT::checkLines: the C++ body is an unimplemented stub
("XXX - TO BE IMPLEMENTED") that only returns false, leaving the point list
empty and the flag as GetIntersections reset it on entry. -/
def checkLines (_s1 _s2 : SegState) : Bool × List IGES_POINT × IFLAG :=
  (false, [], IFLAG.NONE)

/-- The contents of the uninitialized local arrays of checkArcLine:
p0/p1 model IGES_POINT p[2] (whose z is in fact never assigned),
a0/a1 model double ang[2], q0/q1 model IGES_POINT pt[2]. -/
structure ALUninit where
  p0 : IGES_POINT
  p1 : IGES_POINT
  a0 : ℝ
  a1 : ℝ
  q0 : IGES_POINT
  q1 : IGES_POINT

/-- IGES_GEOM_SEGMENT::checkArcLine: arc/circle versus line intersection,
as literally coded: the quadratic in the line parameter t, the tangent and
negative-discriminant early returns, the t-range filter into p[] / np, the
full-circle ordering branch, and the arc angular filter into pt[] / np2.
Array cells the C++ code reads without having written are taken from u. -/
def checkArcLine (u : ALUninit) (s1 s2 : SegState) :
    Bool × List IGES_POINT × IFLAG :=
  let isArc1 := s1.msegtype = SEGTYPE.ARC ∨ s1.msegtype = SEGTYPE.CIRCLE
  let arcSeg := if isArc1 then s1 else s2
  let lineSeg := if isArc1 then s2 else s1
  let arcCircle := arcSeg.msegtype = SEGTYPE.CIRCLE
  let arcSAng := if arcCircle then 0 else arcSeg.msang
  let arcEAng := if arcCircle then 0 else arcSeg.meang
  let arcR := arcSeg.mradius
  let arcC := arcSeg.mcenter
  let lS := getStart lineSeg
  let lE := getEnd lineSeg
  let a0 := lS.x * lS.x - 2 * lS.x * lE.x + lE.x * lE.x
  let b0 := 2 * (arcC.x * lE.x - arcC.x * lS.x + lS.x * lE.x - lE.x * lE.x)
  let c0 := arcC.x * arcC.x - 2 * arcC.x * lE.x + lE.x * lE.x
  let a1 := lS.y * lS.y - 2 * lS.y * lE.y + lE.y * lE.y
  let b1 := 2 * (arcC.y * lE.y - arcC.y * lS.y + lS.y * lE.y - lE.y * lE.y)
  let c1 := arcC.y * arcC.y - 2 * arcC.y * lE.y + lE.y * lE.y
  let A := a0 + a1
  let B := b0 + b1
  let C := c0 + c1 - arcR * arcR
  let D := B * B - 4 * A * C
  if |D| < 0.001 then (false, [], IFLAG.TANGENT)
  else if D < 0 then (false, [], IFLAG.NONE)
  else
    let t0 := (-B + Real.sqrt D) / (2 * A)
    let t1 := (-B - Real.sqrt D) / (2 * A)
    let keep0 := 0 ≤ t0 ∧ t0 ≤ 1
    let keep1 := 0 ≤ t1 ∧ t1 ≤ 1
    let pt0 : IGES_POINT := ⟨t0 * lS.x + (1 - t0) * lE.x,
                             t0 * lS.y + (1 - t0) * lE.y, u.p0.z⟩
    let pt1a : IGES_POINT := ⟨t1 * lS.x + (1 - t1) * lE.x,
                              t1 * lS.y + (1 - t1) * lE.y, u.p0.z⟩
    let pt1b : IGES_POINT := ⟨t1 * lS.x + (1 - t1) * lE.x,
                              t1 * lS.y + (1 - t1) * lE.y, u.p1.z⟩
    let np : ℕ := (if keep0 then 1 else 0) + (if keep1 then 1 else 0)
    let p0 := if keep0 then pt0 else if keep1 then pt1a else u.p0
    let p1 := if keep0 ∧ keep1 then pt1b else u.p1
    let ang0 := if 1 ≤ np then atan2 (p0.y - arcC.y) (p0.x - arcC.x) else u.a0
    let ang1 := if 2 ≤ np then atan2 (p1.y - arcC.y) (p1.x - arcC.x) else u.a1
    if arcCircle then
      if np = 1 then (true, [p0], IFLAG.NONE)
      else
        let doSwap :=
          if 0 ≤ ang0 then 0 ≤ ang1 ∧ ang1 < ang0
          else 0 ≤ ang1 ∨ ang1 < ang0
        if doSwap then (true, [p1, p0], IFLAG.NONE)
        else (true, [p0, p1], IFLAG.NONE)
    else
      let on0 := 1 ≤ np ∧ ((arcSAng ≤ ang0 ∧ ang0 ≤ arcEAng) ∨
        (arcSAng ≤ ang0 + 2 * Real.pi ∧ ang0 + 2 * Real.pi ≤ arcEAng))
      let on1 := 2 ≤ np ∧ ((arcSAng ≤ ang1 ∧ ang1 ≤ arcEAng) ∨
        (arcSAng ≤ ang1 + 2 * Real.pi ∧ ang1 + 2 * Real.pi ≤ arcEAng))
      let q0 := if on0 then p0 else u.q0
      let q1 := if on1 then p1 else u.q1
      let np2 : ℕ := (if on0 then 1 else 0) + (if on1 then 1 else 0)
      if np2 = 0 then (false, [], IFLAG.NONE)
      else if np2 = 1 then (true, [q0], IFLAG.NONE)
      else
        let A0 := if ang0 < arcSAng then ang0 + 2 * Real.pi else ang0
        let A1 := if ang1 < arcSAng then ang1 + 2 * Real.pi else ang1
        if A0 < A1 then (true, [q0, q1], IFLAG.NONE)
        else (true, [q1, q0], IFLAG.NONE)

/-- IGES_GEOM_SEGMENT::GetIntersections: resets the flag, rejects unset
segments, and dispatches on the pair of segment kinds. -/
def GetIntersections (u : ALUninit) (s1 s2 : SegState) :
    Bool × List IGES_POINT × IFLAG :=
  if s1.msegtype = SEGTYPE.NONE then (false, [], IFLAG.NONE)
  else if s2.msegtype = SEGTYPE.NONE then (false, [], IFLAG.NONE)
  else if s1.msegtype = SEGTYPE.CIRCLE then
    if s2.msegtype = SEGTYPE.CIRCLE then checkCircles s1 s2
    else if s2.msegtype = SEGTYPE.ARC then checkArcs s1 s2
    else checkArcLine u s1 s2
  else if s1.msegtype = SEGTYPE.ARC then
    if s2.msegtype = SEGTYPE.LINE then checkArcLine u s1 s2
    else checkArcs s1 s2
  else if s2.msegtype = SEGTYPE.LINE then checkLines s1 s2
  else checkArcLine u s1 s2

/-- One pass of the extrema loop of GetBoundingBox over (p0x, p0y, p1x, p1y). -/
def bbStep (acc : ℝ × ℝ × ℝ × ℝ) (m : ℝ × ℝ) : ℝ × ℝ × ℝ × ℝ :=
  (if m.1 < acc.1 then m.1 else acc.1,
   if m.2 > acc.2.1 then m.2 else acc.2.1,
   if m.1 > acc.2.2.1 then m.1 else acc.2.2.1,
   if m.2 < acc.2.2.2 then m.2 else acc.2.2.2)

/-- IGES_GEOM_SEGMENT::GetBoundingBox: p0 and p1 are reference out-parameters,
so their incoming values p0i / p1i are explicit arguments and components the
C++ code does not assign keep those incoming values (in the arc branch p1 and
both z coordinates are never initialized). The arc branch reproduces the
literal extrema table, in which the entries for angle pi and for -pi/2 both
use (center.x, center.y + radius). -/
def GetBoundingBox (s : SegState) (p0i p1i : IGES_POINT) :
    Bool × IGES_POINT × IGES_POINT :=
  if s.msegtype = SEGTYPE.NONE then (false, p0i, p1i)
  else if s.msegtype = SEGTYPE.LINE then
    if |s.mstart.x - s.mend.x| < 1e-8 then
      if s.mstart.y > s.mend.y then (true, s.mstart, s.mend)
      else (true, s.mend, s.mstart)
    else
      let p0x := if s.mstart.x < s.mend.x then s.mstart.x else s.mend.x
      let p1x := if s.mstart.x < s.mend.x then s.mend.x else s.mstart.x
      let p0y := if s.mstart.y ≥ s.mend.y then s.mstart.y else s.mend.y
      let p1y := if s.mstart.y ≥ s.mend.y then s.mend.y else s.mstart.y
      (true, ⟨p0x, p0y, p0i.z⟩, ⟨p1x, p1y, p1i.z⟩)
  else if s.msegtype = SEGTYPE.CIRCLE then
    (true, ⟨s.mcenter.x - s.mradius, s.mcenter.y + s.mradius, p0i.z⟩,
           ⟨s.mcenter.x + s.mradius, s.mcenter.y - s.mradius, p1i.z⟩)
  else
    let aS := s.msang
    let aE := s.meang
    let ms : List (ℝ × ℝ) :=
      (if (aS ≤ 0 ∧ 0 ≤ aE) ∨ (aS ≤ 2 * Real.pi ∧ 2 * Real.pi ≤ aE) then
        [(s.mcenter.x + s.mradius, s.mcenter.y)] else []) ++
      (if (aS ≤ Real.pi * 0.5 ∧ Real.pi * 0.5 ≤ aE) ∨
          (aS ≤ 2.5 * Real.pi ∧ 2.5 * Real.pi ≤ aE) then
        [(s.mcenter.x, s.mcenter.y + s.mradius)] else []) ++
      (if aS ≤ Real.pi ∧ Real.pi ≤ aE then
        [(s.mcenter.x, s.mcenter.y + s.mradius)] else []) ++
      (if (aS ≤ -0.5 * Real.pi ∧ -0.5 * Real.pi ≤ aE) ∨
          (aS ≤ 1.5 * Real.pi ∧ 1.5 * Real.pi ≤ aE) then
        [(s.mcenter.x, s.mcenter.y + s.mradius)] else [])
    let p0x := if s.mstart.x < s.mend.x then s.mstart.x else s.mend.x
    let p0y := if s.mstart.y > s.mend.y then s.mstart.y else s.mend.y
    let r := List.foldl bbStep (p0x, p0y, p1i.x, p1i.y) ms
    (true, ⟨r.1, r.2.1, p0i.z⟩, ⟨r.2.2.1, r.2.2.2, p1i.z⟩)

/-- Tolerance equality unfolded to a comparison of squared distances. -/
theorem PointMatches_iff {a b : IGES_POINT} {eps : ℝ} (h : 0 < eps) :
    PointMatches a b eps ↔
      (a.x - b.x) ^ 2 + (a.y - b.y) ^ 2 + (a.z - b.z) ^ 2 < eps ^ 2 :=
  Real.sqrt_lt' h

/-- A circle state exactly as the circle branch of SetParams produces it. -/
def circleState (cx cy r : ℝ) : SegState :=
  { segInit with msegtype := SEGTYPE.CIRCLE, mradius := r,
                 mcenter := ⟨cx, cy, 0⟩, mstart := ⟨cx + r, cy, 0⟩,
                 mend := ⟨cx + r, cy, 0⟩ }

/-- A line state exactly as the line SetParams produces it. -/
def lineState (x1 y1 x2 y2 : ℝ) : SegState :=
  { segInit with msegtype := SEGTYPE.LINE,
                 mstart := ⟨x1, y1, 0⟩, mend := ⟨x2, y2, 0⟩ }

/-- An arc state with the stored CCW angular pair. -/
def arcState (cx cy r sa ea x1 y1 x2 y2 : ℝ) (cw : Bool) : SegState :=
  { msegtype := SEGTYPE.ARC, mCWArc := cw, mradius := r, msang := sa,
    meang := ea, mcenter := ⟨cx, cy, 0⟩, mstart := ⟨x1, y1, 0⟩,
    mend := ⟨x2, y2, 0⟩ }

/-- Default-constructed contents for the local arrays of checkArcLine. -/
def uZero : ALUninit := ⟨pZero, pZero, 0, 0, pZero, pZero⟩

/-- The circle branch of the arc SetParams really produces circleState. -/
theorem setParamsArc_builds_circleState (prev : SegState) (cx cy r : ℝ)
    (hr : 1e-8 ≤ r) :
    setParamsArc prev ⟨cx, cy, 0⟩ ⟨cx + r, cy, 0⟩ ⟨cx + r, cy, 0⟩ false =
      (true, circleState cx cy r) := by
  have hr0 : (0:ℝ) < r := lt_of_lt_of_le (by norm_num) hr
  have hpm : ¬ PointMatches ⟨cx, cy, 0⟩ ⟨cx + r, cy, 0⟩ 1e-8 := by
    rw [PointMatches_iff (by norm_num)]
    simp only [not_lt]
    nlinarith
  have hpm2 : PointMatches ⟨cx + r, cy, 0⟩ ⟨cx + r, cy, 0⟩ 1e-8 := by
    rw [PointMatches_iff (by norm_num)]
    norm_num
  unfold setParamsArc
  rw [if_neg (by simp), if_neg (by simp [hpm]), if_pos hpm2]
  have : Real.sqrt ((cx + r - cx) * (cx + r - cx) + (cy - cy) * (cy - cy)) = r := by
    rw [show (cx + r - cx) * (cx + r - cx) + (cy - cy) * (cy - cy) = r * r by ring,
      Real.sqrt_mul_self hr0.le]
  rw [this]
  rfl

/-- C1 counterexample: unit circles centered at the origin and at
(4001/2000, 0) satisfy the claimed tangency condition
|d - (r1 + r2)| < 1e-3 (d = 2.0005, r1 + r2 = 2), yet GetIntersections
reports flag None with no points, because the d > r1 + r2 rejection runs
before the tangency test. -/
theorem circles_tangentWithinTol_flag_none :
    |Real.sqrt (((0:ℝ) - 4001 / 2000) * ((0:ℝ) - 4001 / 2000) +
        ((0:ℝ) - 0) * ((0:ℝ) - 0)) - (1 + 1)| < 1e-3 ∧
    GetIntersections uZero (circleState 0 0 1) (circleState (4001 / 2000) 0 1) =
      (false, [], IFLAG.NONE) := by
  have harg : ((0:ℝ) - 4001 / 2000) * ((0:ℝ) - 4001 / 2000) +
      ((0:ℝ) - 0) * ((0:ℝ) - 0) = (4001 / 2000) * (4001 / 2000) := by
    norm_num
  have hd : Real.sqrt (((0:ℝ) - 4001 / 2000) * ((0:ℝ) - 4001 / 2000) +
      ((0:ℝ) - 0) * ((0:ℝ) - 0)) = 4001 / 2000 := by
    rw [harg, Real.sqrt_mul_self (by norm_num)]
  constructor
  · rw [hd, show (4001 / 2000 : ℝ) - (1 + 1) = 1 / 2000 by norm_num,
      abs_of_pos (by norm_num)]
    norm_num
  · have hgt : Real.sqrt (((0:ℝ) - 4001 / 2000) * ((0:ℝ) - 4001 / 2000) +
        ((0:ℝ) - 0) * ((0:ℝ) - 0)) > 1 + 1 := by
      rw [hd]
      norm_num
    simp only [GetIntersections, checkCircles, circleState, segInit,
      if_pos trivial, if_neg (show ¬(SEGTYPE.CIRCLE = SEGTYPE.NONE) by simp)]
    rw [if_pos hgt]

/-- C1 amended: the circle-circle classification holds as claimed except
that the d > r1 + r2 rejection runs first, so Coincident and Tangent are
only reported when d ≤ r1 + r2; whenever d exceeds r1 + r2 (even within
1e-3 of tangency) the call returns no points with flag None. -/
theorem checkCircles_classification (s1 s2 : SegState) (d : ℝ)
    (hr1 : 0 < s1.mradius) (hr2 : 0 < s2.mradius)
    (hd : d = Real.sqrt
      ((s1.mcenter.x - s2.mcenter.x) * (s1.mcenter.x - s2.mcenter.x) +
       (s1.mcenter.y - s2.mcenter.y) * (s1.mcenter.y - s2.mcenter.y))) :
    (s1.mradius + s2.mradius < d →
      checkCircles s1 s2 = (false, [], IFLAG.NONE))
  ∧ (d ≤ s1.mradius + s2.mradius →
      PointMatches s1.mcenter s2.mcenter 0.001 →
      |s1.mradius - s2.mradius| < 0.001 →
      checkCircles s1 s2 = (false, [], IFLAG.IDENT))
  ∧ (d ≤ s1.mradius + s2.mradius →
      ¬(PointMatches s1.mcenter s2.mcenter 0.001 ∧
        |s1.mradius - s2.mradius| < 0.001) →
      |d - (s1.mradius + s2.mradius)| < 0.001 →
      checkCircles s1 s2 = (false, [], IFLAG.TANGENT))
  ∧ (d ≤ s1.mradius + s2.mradius →
      ¬(PointMatches s1.mcenter s2.mcenter 0.001 ∧
        |s1.mradius - s2.mradius| < 0.001) →
      ¬(|d - (s1.mradius + s2.mradius)| < 0.001) →
      d ≤ s1.mradius - s2.mradius →
      checkCircles s1 s2 = (false, [], IFLAG.ENCIRCLES))
  ∧ (d ≤ s1.mradius + s2.mradius →
      ¬(PointMatches s1.mcenter s2.mcenter 0.001 ∧
        |s1.mradius - s2.mradius| < 0.001) →
      ¬(|d - (s1.mradius + s2.mradius)| < 0.001) →
      ¬(d ≤ s1.mradius - s2.mradius) →
      d ≤ s2.mradius - s1.mradius →
      checkCircles s1 s2 = (false, [], IFLAG.INSIDE))
  ∧ (d ≤ s1.mradius + s2.mradius →
      ¬(PointMatches s1.mcenter s2.mcenter 0.001 ∧
        |s1.mradius - s2.mradius| < 0.001) →
      ¬(|d - (s1.mradius + s2.mradius)| < 0.001) →
      ¬(d ≤ s1.mradius - s2.mradius) →
      ¬(d ≤ s2.mradius - s1.mradius) →
      ∃ p q, checkCircles s1 s2 = (true, [p, q], IFLAG.NONE)) := by
  have habs : |d - s1.mradius - s2.mradius| =
      |d - (s1.mradius + s2.mradius)| := by
    rw [sub_sub]
  refine ⟨fun h1 => ?_, fun h1 h2 h3 => ?_, fun h1 h2 h3 => ?_,
    fun h1 h2 h3 h4 => ?_, fun h1 h2 h3 h4 h5 => ?_, fun h1 h2 h3 h4 h5 => ?_⟩
  · simp only [checkCircles, ← hd]
    rw [if_pos h1]
  · simp only [checkCircles, ← hd]
    rw [if_neg (not_lt.mpr h1), if_pos ⟨h2, h3⟩]
  · simp only [checkCircles, ← hd]
    rw [if_neg (not_lt.mpr h1), if_neg h2, if_pos (by rw [habs]; exact h3)]
  · simp only [checkCircles, ← hd]
    rw [if_neg (not_lt.mpr h1), if_neg h2,
      if_neg (by rw [habs]; exact h3),
      if_pos (Or.inl (lt_of_le_of_lt h4 (by linarith))), if_pos h4]
  · simp only [checkCircles, ← hd]
    rw [if_neg (not_lt.mpr h1), if_neg h2,
      if_neg (by rw [habs]; exact h3),
      if_pos (Or.inr (lt_of_le_of_lt h5 (by linarith))),
      if_neg h4, if_pos h5]
  · simp only [checkCircles, ← hd]
    by_cases hg : d < s1.mradius ∨ d < s2.mradius
    · rw [if_neg (not_lt.mpr h1), if_neg h2,
        if_neg (by rw [habs]; exact h3), if_pos hg, if_neg h4, if_neg h5]
      exact ⟨_, _, rfl⟩
    · rw [if_neg (not_lt.mpr h1), if_neg h2,
        if_neg (by rw [habs]; exact h3), if_neg hg]
      exact ⟨_, _, rfl⟩

/-- C1 witness: spec scenario S3, the circle of radius 2 against the
concentric circle of radius 5, classified SegmentInsideOther (INSIDE). -/
theorem checkCircles_classification_witness :
    checkCircles (circleState 0 0 2) (circleState 0 0 5) =
      (false, [], IFLAG.INSIDE) := by
  have h := checkCircles_classification (circleState 0 0 2) (circleState 0 0 5)
    0 (by norm_num [circleState, segInit]) (by norm_num [circleState, segInit])
    (by simp [circleState, segInit])
  exact h.2.2.2.2.1 (by norm_num [circleState, segInit])
    (by rintro ⟨-, habs⟩; norm_num [circleState, segInit] at habs)
    (by norm_num [circleState, segInit])
    (by norm_num [circleState, segInit])
    (by norm_num [circleState, segInit])

/-- C2: for circle1 centered at the origin with radius 5 and circle2
centered at (3,4) with radius sqrt 20 (a proper two-point intersection,
d = 5), neither point returned by checkCircles lies on circle1: the code
offsets the radical-line foot by (h*dy, h*dx) instead of a perpendicular
(h*dy, -h*dx), so it returns (5, 24/5) and (-7/5, 0) whose squared
distances from the first center are 1201/25 and 49/25 rather than 25.
The true intersection points would be (5, 0) and (-7/5, 24/5). -/
theorem checkCircles_returns_points_off_circle :
    ∃ p q,
      checkCircles (circleState 0 0 5) (circleState 3 4 (Real.sqrt 20)) =
        (true, [p, q], IFLAG.NONE) ∧
      p.x * p.x + p.y * p.y ≠ 5 * 5 ∧
      q.x * q.x + q.y * q.y ≠ 5 * 5 := by
  have h20 : (0:ℝ) ≤ 20 := by norm_num
  have hm : Real.sqrt 20 * Real.sqrt 20 = 20 := Real.mul_self_sqrt h20
  have h16 : Real.sqrt (16:ℝ) = 4 := by
    rw [show (16:ℝ) = 4 ^ 2 by norm_num, Real.sqrt_sq (by norm_num)]
  have hd : Real.sqrt (((0:ℝ) - 3) * ((0:ℝ) - 3) + ((0:ℝ) - 4) * ((0:ℝ) - 4))
      = 5 := by
    rw [show ((0:ℝ) - 3) * ((0:ℝ) - 3) + ((0:ℝ) - 4) * ((0:ℝ) - 4) = 5 * 5
      by norm_num, Real.sqrt_mul_self (by norm_num)]
  have hs5 : Real.sqrt 20 ≤ 5 := by
    nlinarith [Real.sq_sqrt h20, Real.sqrt_nonneg (20:ℝ)]
  simp only [checkCircles, circleState, segInit]
  rw [hd]
  rw [if_neg (not_lt.mpr (le_add_of_nonneg_right (Real.sqrt_nonneg _)))]
  rw [if_neg (show ¬(PointMatches ⟨0, 0, 0⟩ ⟨3, 4, 0⟩ 0.001 ∧
      |(5:ℝ) - Real.sqrt 20| < 0.001) by
    rintro ⟨hp, -⟩
    rw [PointMatches_iff (by norm_num)] at hp
    norm_num at hp)]
  rw [if_neg (show ¬(|(5:ℝ) - 5 - Real.sqrt 20| < 0.001) by
    intro hlt
    rw [show (5:ℝ) - 5 - Real.sqrt 20 = -Real.sqrt 20 by ring, abs_neg,
      abs_of_nonneg (Real.sqrt_nonneg _), Real.sqrt_lt' (by norm_num)] at hlt
    norm_num at hlt)]
  rw [if_neg (show ¬((5:ℝ) < 5 ∨ (5:ℝ) < Real.sqrt 20) by
    rintro (h | h)
    · exact lt_irrefl _ h
    · linarith)]
  refine ⟨_, _, rfl, ?_, ?_⟩ <;>
  · simp only [calcCircleIntercepts]
    split_ifs <;> norm_num [hm, h16]

/-- C4: for every pair of line segments GetIntersections dispatches to
checkLines, which is an unimplemented stub; at the spec scenario S1
(L1 from the origin to (10,0), L2 from (5,-5) to (5,5)) the call therefore
fails with no points and flag None instead of producing the point (5,0,0). -/
theorem lineLine_S1_returns_nothing :
    GetIntersections uZero (lineState 0 0 10 0) (lineState 5 (-5) 5 5) =
      (false, [], IFLAG.NONE) := by
  simp [GetIntersections, lineState, checkLines]

/-- C3: for the unit circle at the origin against the line segment from
(5,0) to (6,0), the quadratic has discriminant 4 and roots t = 7 and t = 5,
so no root lies in [0,1]; the claim requires that only roots with t in
[0,1] be kept, yet the full-circle branch of checkArcLine skips the np
bookkeeping and reports success with two points taken from the
uninitialized local array, whatever that array held. -/
theorem circleLine_noRootInRange_two_points (u : ALUninit) :
    (GetIntersections u (circleState 0 0 1) (lineState 5 0 6 0)).1 = true ∧
    (GetIntersections u (circleState 0 0 1) (lineState 5 0 6 0)).2.1.length
      = 2 := by
  have h4 : Real.sqrt (4:ℝ) = 2 := by
    rw [show (4:ℝ) = 2 ^ 2 by norm_num, Real.sqrt_sq (by norm_num)]
  simp only [GetIntersections, checkArcLine, circleState, lineState, segInit,
    getStart, getEnd]
  norm_num [h4]
  split_ifs <;> simp_all

/-- C3 witness: the theorem at default-constructed (all-zero) array
contents. -/
theorem circleLine_noRootInRange_two_points_witness :
    (GetIntersections uZero (circleState 0 0 1) (lineState 5 0 6 0)).1 = true ∧
    (GetIntersections uZero (circleState 0 0 1) (lineState 5 0 6 0)).2.1.length
      = 2 :=
  circleLine_noRootInRange_two_points uZero

/-- C5: arc-arc and arc-circle intersections dispatch to checkArcs, which is
an unimplemented stub; for a full circle against a coincident semicircular
arc the call fails with no points and flag None instead of reporting
EdgeOverlap with the arc endpoints. -/
theorem arcCircle_coincident_returns_nothing :
    GetIntersections uZero (circleState 0 0 1)
      (arcState 0 0 1 0 Real.pi 1 0 (-1) 0 false) =
      (false, [], IFLAG.NONE) := by
  simp [GetIntersections, circleState, arcState, checkArcs]

/-- C6 counterexample: intersecting a successfully constructed line segment
with itself does not report the Coincident flag; the call yields flag None. -/
theorem selfIntersect_line_not_coincident :
    (GetIntersections uZero (lineState 0 0 1 0) (lineState 0 0 1 0)).2.2 ≠
      IFLAG.IDENT := by
  simp [GetIntersections, lineState, checkLines]

/-- C6 amended: a circle segment intersected with itself reports Coincident
(IDENT), but a line or arc segment intersected with itself merely fails with
no points and flag None, because checkLines and checkArcs are unimplemented
stubs. -/
theorem selfIntersect_flags (u : ALUninit) (s : SegState) :
    (s.msegtype = SEGTYPE.CIRCLE → 0 ≤ s.mradius →
      GetIntersections u s s = (false, [], IFLAG.IDENT))
  ∧ (s.msegtype = SEGTYPE.LINE →
      GetIntersections u s s = (false, [], IFLAG.NONE))
  ∧ (s.msegtype = SEGTYPE.ARC →
      GetIntersections u s s = (false, [], IFLAG.NONE)) := by
  refine ⟨fun h hr => ?_, fun h => ?_, fun h => ?_⟩
  · have hpm : PointMatches s.mcenter s.mcenter 0.001 := by
      rw [PointMatches_iff (by norm_num)]
      norm_num
    have hd : Real.sqrt
        ((s.mcenter.x - s.mcenter.x) * (s.mcenter.x - s.mcenter.x) +
         (s.mcenter.y - s.mcenter.y) * (s.mcenter.y - s.mcenter.y)) = 0 := by
      simp
    have hng : ¬((0:ℝ) > s.mradius + s.mradius) := by
      intro hlt
      linarith
    have hid : PointMatches s.mcenter s.mcenter 0.001 ∧
        |s.mradius - s.mradius| < 0.001 := ⟨hpm, by rw [sub_self, abs_zero]; norm_num⟩
    have hne : ¬(SEGTYPE.CIRCLE = SEGTYPE.NONE) := by simp
    simp only [GetIntersections, h, checkCircles, hd, if_pos trivial,
      if_neg hng, if_pos hid, if_neg hne]
  · simp [GetIntersections, h, checkLines]
  · simp [GetIntersections, h, checkArcs]

/-- C6 witness: the amended claim at a concrete unit circle. -/
theorem selfIntersect_flags_witness :
    GetIntersections uZero (circleState 0 0 1) (circleState 0 0 1) =
      (false, [], IFLAG.IDENT) :=
  (selfIntersect_flags uZero (circleState 0 0 1)).1 rfl
    (by norm_num [circleState, segInit])

/-- Evaluation of the modelled atan2 on the positive y axis. -/
theorem atan2_one_zero : atan2 1 0 = Real.pi / 2 := by
  norm_num [atan2]

/-- Evaluation of the modelled atan2 on the negative y axis. -/
theorem atan2_negOne_zero : atan2 (-1) 0 = -(Real.pi / 2) := by
  norm_num [atan2]

/-- Evaluation of the angle-normalization loop for the left half-plane arc. -/
theorem normAngle_half : normAngle (Real.pi / 2) (-(Real.pi / 2)) =
    3 * Real.pi / 2 := by
  rw [normAngle, if_neg (by linarith [Real.pi_pos])]
  have harg : (Real.pi / 2 - -(Real.pi / 2)) / (2 * Real.pi) = 1 / 2 := by
    rw [show Real.pi / 2 - -(Real.pi / 2) = Real.pi by ring,
      div_eq_div_iff (by positivity) (by norm_num)]
    ring
  rw [harg, show Int.ceil ((1:ℝ) / 2) = 1 by rw [Int.ceil_eq_iff]; norm_num]
  push_cast
  ring

/-- The CCW arc from (0,1) to (0,-1) about the origin really is built by
SetParams with the stored CCW angular pair (pi/2, 3*pi/2). -/
theorem setParamsArc_builds_halfArc :
    setParamsArc segInit ⟨0, 0, 0⟩ ⟨0, 1, 0⟩ ⟨0, -1, 0⟩ false =
      (true, arcState 0 0 1 (Real.pi / 2) (3 * Real.pi / 2) 0 1 0 (-1)
        false) := by
  have hpm1 : ¬ PointMatches ⟨0, 0, 0⟩ ⟨0, 1, 0⟩ 1e-8 := by
    rw [PointMatches_iff (by norm_num)]
    norm_num
  have hpm2 : ¬ PointMatches ⟨0, 0, 0⟩ ⟨0, -1, 0⟩ 1e-8 := by
    rw [PointMatches_iff (by norm_num)]
    norm_num
  have hpm3 : ¬ PointMatches ⟨0, 1, 0⟩ ⟨0, -1, 0⟩ 1e-8 := by
    rw [PointMatches_iff (by norm_num)]
    norm_num
  have hs1 : Real.sqrt (((0:ℝ) - 0) * ((0:ℝ) - 0) +
      ((1:ℝ) - 0) * ((1:ℝ) - 0)) = 1 := by
    rw [show ((0:ℝ) - 0) * ((0:ℝ) - 0) + ((1:ℝ) - 0) * ((1:ℝ) - 0) = 1
      by norm_num, Real.sqrt_one]
  have hs2 : Real.sqrt (((0:ℝ) - 0) * ((0:ℝ) - 0) +
      ((-1:ℝ) - 0) * ((-1:ℝ) - 0)) = 1 := by
    rw [show ((0:ℝ) - 0) * ((0:ℝ) - 0) + ((-1:ℝ) - 0) * ((-1:ℝ) - 0) = 1
      by norm_num, Real.sqrt_one]
  have ha1 : atan2 ((1:ℝ) - 0) ((0:ℝ) - 0) = Real.pi / 2 := by
    rw [show ((1:ℝ) - 0) = 1 by norm_num, show ((0:ℝ) - 0) = 0 by norm_num,
      atan2_one_zero]
  have ha2 : atan2 ((-1:ℝ) - 0) ((0:ℝ) - 0) = -(Real.pi / 2) := by
    rw [show ((-1:ℝ) - 0) = -1 by norm_num, show ((0:ℝ) - 0) = 0 by norm_num,
      atan2_negOne_zero]
  simp only [setParamsArc]
  rw [if_neg (by simp), if_neg (by simp [hpm1, hpm2]), if_neg hpm3, hs1, hs2,
    if_neg (by norm_num : ¬(|(1:ℝ) - 1| > 1e-3))]
  simp only [ha1, ha2, Bool.false_eq_true, if_false, normAngle_half]
  simp [arcState, segInit]

/-- C8: for the CCW half-circle arc from (0,1) through (-1,0) to (0,-1)
the angle pi lies inside the stored angular interval, so the smallest
axis-aligned rectangle of the claim has top-left corner (-1, 1); yet
GetBoundingBox reports a top-left corner with x = 0 and y = 1 no matter
what the out-parameters held on entry, because the extremum entry for
angle pi is written as (center.x, center.y + r) instead of
(center.x - r, center.y). -/
theorem getBoundingBox_halfArc_topLeft (p0i p1i : IGES_POINT) :
    (Real.pi / 2 ≤ Real.pi ∧ Real.pi ≤ 3 * Real.pi / 2) ∧
    (GetBoundingBox (arcState 0 0 1 (Real.pi / 2) (3 * Real.pi / 2)
        0 1 0 (-1) false) p0i p1i).1 = true ∧
    ((GetBoundingBox (arcState 0 0 1 (Real.pi / 2) (3 * Real.pi / 2)
        0 1 0 (-1) false) p0i p1i).2.1).x = 0 ∧
    ((GetBoundingBox (arcState 0 0 1 (Real.pi / 2) (3 * Real.pi / 2)
        0 1 0 (-1) false) p0i p1i).2.1).y = 1 := by
  have hpi := Real.pi_pos
  have hc0 : ¬((Real.pi / 2 ≤ 0 ∧ (0:ℝ) ≤ 3 * Real.pi / 2) ∨
      (Real.pi / 2 ≤ 2 * Real.pi ∧ 2 * Real.pi ≤ 3 * Real.pi / 2)) := by
    rintro (⟨h, -⟩ | ⟨-, h⟩) <;> linarith
  have hc1 : (Real.pi / 2 ≤ Real.pi * 0.5 ∧ Real.pi * 0.5 ≤ 3 * Real.pi / 2) ∨
      (Real.pi / 2 ≤ 2.5 * Real.pi ∧ 2.5 * Real.pi ≤ 3 * Real.pi / 2) := by
    left
    constructor <;> nlinarith
  have hc2 : Real.pi / 2 ≤ Real.pi ∧ Real.pi ≤ 3 * Real.pi / 2 :=
    ⟨by linarith, by linarith⟩
  have hc3 : (Real.pi / 2 ≤ -0.5 * Real.pi ∧ -0.5 * Real.pi ≤ 3 * Real.pi / 2)
      ∨ (Real.pi / 2 ≤ 1.5 * Real.pi ∧ 1.5 * Real.pi ≤ 3 * Real.pi / 2) := by
    right
    constructor <;> nlinarith
  refine ⟨hc2, ?_, ?_, ?_⟩ <;>
  · simp only [GetBoundingBox, arcState, if_neg hc0, if_pos hc1, if_pos hc2,
      if_pos hc3, if_neg (show ¬(SEGTYPE.ARC = SEGTYPE.NONE) by simp),
      if_neg (show ¬(SEGTYPE.ARC = SEGTYPE.LINE) by simp),
      if_neg (show ¬(SEGTYPE.ARC = SEGTYPE.CIRCLE) by simp)]
    try norm_num [bbStep]

/-- C8 witness: the bounding-box evaluation at zeroed incoming
out-parameters. -/
theorem getBoundingBox_halfArc_topLeft_witness :
    ((GetBoundingBox (arcState 0 0 1 (Real.pi / 2) (3 * Real.pi / 2)
        0 1 0 (-1) false) pZero pZero).2.1).x = 0 :=
  (getBoundingBox_halfArc_topLeft pZero pZero).2.2.1

/-- C9: whenever either SetParams overload fails, the resulting state is the
unset state produced by init() (kind NONE, radius zero, zeroed points),
regardless of what the segment held before the call. -/
theorem setParams_failure_resets (prev prev2 : SegState)
    (aStart aEnd c s e : IGES_POINT) (cw : Bool) :
    ((setParamsLine prev aStart aEnd).1 = false →
      (setParamsLine prev aStart aEnd).2 = segInit)
  ∧ ((setParamsArc prev2 c s e cw).1 = false →
      (setParamsArc prev2 c s e cw).2 = segInit)
  ∧ segInit.msegtype = SEGTYPE.NONE ∧ segInit.mradius = 0
  ∧ segInit.mstart = pZero ∧ segInit.mend = pZero
  ∧ segInit.mcenter = pZero := by
  refine ⟨?_, ?_, rfl, rfl, rfl, rfl, rfl⟩
  · have halt : (setParamsLine prev aStart aEnd).2 = segInit ∨
        (setParamsLine prev aStart aEnd).1 = true := by
      simp only [setParamsLine]
      split_ifs <;> simp [segInit]
    intro h
    rcases halt with h2 | h2
    · exact h2
    · rw [h] at h2
      cases h2
  · have halt : (setParamsArc prev2 c s e cw).2 = segInit ∨
        (setParamsArc prev2 c s e cw).1 = true := by
      simp only [setParamsArc]
      split_ifs <;> simp [segInit]
    intro h
    rcases halt with h2 | h2
    · exact h2
    · rw [h] at h2
      cases h2

/-- C9 witness: a degenerate line construction fails and leaves the unset
state. -/
theorem setParams_failure_resets_witness :
    (setParamsLine segInit pZero pZero).2 = segInit :=
  (setParams_failure_resets segInit segInit pZero pZero pZero pZero pZero
    false).1
    (by norm_num [setParamsLine, PointMatches, pZero])

/-- C7: an arc SetParams call with planar inputs, a non-degenerate center
and start equal to end within 1e-8 succeeds and produces a circle whose
radius is the distance from start to center and whose stored start and end
are both the canonical point center + (radius, 0, 0). -/
theorem setParamsArc_degenerate_circle (prev : SegState) (c s e : IGES_POINT)
    (cw : Bool) (hcz : c.z = 0) (hsz : s.z = 0) (hez : e.z = 0)
    (hcs : ¬ PointMatches c s 1e-8) (hce : ¬ PointMatches c e 1e-8)
    (hse : PointMatches s e 1e-8) :
    (setParamsArc prev c s e cw).1 = true ∧
    (setParamsArc prev c s e cw).2.msegtype = SEGTYPE.CIRCLE ∧
    (setParamsArc prev c s e cw).2.mradius =
      Real.sqrt ((s.x - c.x) ^ 2 + (s.y - c.y) ^ 2 + (s.z - c.z) ^ 2) ∧
    (setParamsArc prev c s e cw).2.mstart =
      ⟨c.x + (setParamsArc prev c s e cw).2.mradius, c.y, c.z⟩ ∧
    (setParamsArc prev c s e cw).2.mend =
      (setParamsArc prev c s e cw).2.mstart := by
  have hsq : Real.sqrt ((s.x - c.x) * (s.x - c.x) + (s.y - c.y) * (s.y - c.y)) =
      Real.sqrt ((s.x - c.x) ^ 2 + (s.y - c.y) ^ 2 + (s.z - c.z) ^ 2) := by
    rw [hsz, hcz]
    ring_nf
  unfold setParamsArc
  rw [if_neg (by simp [hcz, hsz, hez]), if_neg (by simp [hcs, hce]),
    if_pos hse]
  exact ⟨rfl, rfl, hsq, by rw [hsq], rfl⟩

/-- C7 witness: the claim at center the origin and start = end = (1,0,0). -/
theorem setParamsArc_degenerate_circle_witness :
    (setParamsArc segInit pZero ⟨1, 0, 0⟩ ⟨1, 0, 0⟩ false).1 = true ∧
    (setParamsArc segInit pZero ⟨1, 0, 0⟩ ⟨1, 0, 0⟩ false).2.msegtype =
      SEGTYPE.CIRCLE := by
  have h := setParamsArc_degenerate_circle segInit pZero ⟨1, 0, 0⟩ ⟨1, 0, 0⟩
    false rfl rfl rfl
    (by rw [PointMatches_iff (by norm_num)]; norm_num [pZero])
    (by rw [PointMatches_iff (by norm_num)]; norm_num [pZero])
    (by rw [PointMatches_iff (by norm_num)]; norm_num)
  exact ⟨h.1, h.2.1⟩

/-- C10: a successful generic arc construction stores the given endpoints,
and getStart / getEnd return them swapped for a CW arc and unchanged for a
CCW arc, so the accessor pair always describes the arc in CCW traversal
order. -/
theorem setParamsArc_accessors_ccw (prev : SegState) (c s e : IGES_POINT)
    (cw : Bool) (hcz : c.z = 0) (hsz : s.z = 0) (hez : e.z = 0)
    (hcs : ¬ PointMatches c s 1e-8) (hce : ¬ PointMatches c e 1e-8)
    (hse : ¬ PointMatches s e 1e-8)
    (hr : |Real.sqrt ((e.x - c.x) * (e.x - c.x) + (e.y - c.y) * (e.y - c.y)) -
           Real.sqrt ((s.x - c.x) * (s.x - c.x) + (s.y - c.y) * (s.y - c.y))|
           ≤ 1e-3) :
    (setParamsArc prev c s e cw).1 = true ∧
    (setParamsArc prev c s e cw).2.msegtype = SEGTYPE.ARC ∧
    (setParamsArc prev c s e cw).2.mCWArc = cw ∧
    (setParamsArc prev c s e cw).2.mstart = s ∧
    (setParamsArc prev c s e cw).2.mend = e ∧
    getStart (setParamsArc prev c s e cw).2 = (if cw then e else s) ∧
    getEnd (setParamsArc prev c s e cw).2 = (if cw then s else e) := by
  unfold setParamsArc
  rw [if_neg (by simp [hcz, hsz, hez]), if_neg (by simp [hcs, hce]),
    if_neg hse, if_neg (not_lt.mpr hr)]
  refine ⟨rfl, rfl, rfl, rfl, rfl, ?_, ?_⟩ <;> cases cw <;> simp [getStart, getEnd]

/-- C10 witness: a CW quarter arc from (1,0) to (0,1); getStart yields the
stored end (0,1) and getEnd the stored start (1,0). -/
theorem setParamsArc_accessors_ccw_witness :
    getStart (setParamsArc segInit pZero ⟨1, 0, 0⟩ ⟨0, 1, 0⟩ true).2 =
      (⟨0, 1, 0⟩ : IGES_POINT) ∧
    getEnd (setParamsArc segInit pZero ⟨1, 0, 0⟩ ⟨0, 1, 0⟩ true).2 =
      (⟨1, 0, 0⟩ : IGES_POINT) := by
  have h := setParamsArc_accessors_ccw segInit pZero ⟨1, 0, 0⟩ ⟨0, 1, 0⟩
    true rfl rfl rfl
    (by rw [PointMatches_iff (by norm_num)]; norm_num [pZero])
    (by rw [PointMatches_iff (by norm_num)]; norm_num [pZero])
    (by rw [PointMatches_iff (by norm_num)]; norm_num)
    (by norm_num [pZero, Real.sqrt_one])
  refine ⟨?_, ?_⟩
  · rw [h.2.2.2.2.2.1]
    rfl
  · rw [h.2.2.2.2.2.2]
    rfl

end

end LibIGES
